import Mathlib

/-!
# Verification of the privy-share authentication/lockout core

Shallow embedding of the auth subsystem of `privy-share`:

* the lockout store (`src/lib/auth/lockout.ts`): the singleton
  `AuthStateEntity` record, `toStatus`, `getLockoutStatus`,
  `recordFailedAttempt`, `resetFailedAttempts`;
* the TOTP verifier front-end (`src/lib/auth/totp.ts`): input
  normalization and the six-digit gate in `verifyTotpCode` (the
  library time-step comparison `otplib.verifySync` is abstracted as a
  parameter `check`);
* the session token issuer/verifier (`src/lib/auth/session.ts`):
  `createSessionToken` / `verifySessionToken`, with the JWT signature
  modelled symbolically (a token records which secret signed it, and
  signature verification succeeds exactly when the verifier's secret
  matches);
* the login route handler (`src/app/api/auth/login/route.ts`): body
  validation, the lockout short-circuit, and the orchestration of
  verifier, counter and session issuance.

State that the TypeScript code keeps in Azure Table storage is passed
explicitly as an `Option AuthStateEntity` (`none` = no record stored
yet).  Wall-clock time is an explicit argument: milliseconds since
epoch for the lockout code, seconds since epoch for the JWT code
(matching `Date.now()` vs. JWT `exp`/`iat` claims).  JavaScript
numbers are embedded as `Int` (all values involved are integral).
-/

namespace PrivyShare

/-! ## Lockout store (`src/lib/auth/lockout.ts`) -/

/-- The stored singleton record.  The TypeScript entity also carries
`partitionKey`/`rowKey` (fixed constants `"auth"`/`"global"`) and an
informational `updatedAt` string; these never influence behaviour and
are omitted. -/
structure AuthStateEntity where
  failedAttempts : Int
  lockUntilEpochMs : Int
  deriving DecidableEq, Repr

/-- `LockoutStatus` from `src/lib/types.ts`. -/
structure LockoutStatus where
  isLocked : Bool
  failedAttempts : Int
  maxAttempts : Int
  lockUntilEpochMs : Int
  retryAfterSeconds : Int
  deriving DecidableEq, Repr

/-- `defaultEntity()`: the zero-valued record materialized on first read. -/
def defaultEntity : AuthStateEntity :=
  { failedAttempts := 0, lockUntilEpochMs := 0 }

/-- `normalizeEntity`: fills absent fields with `0` (`Number(x ?? 0)`). -/
def normalizeEntity (failedAttempts lockUntilEpochMs : Option Int) : AuthStateEntity :=
  { failedAttempts := failedAttempts.getD 0
    lockUntilEpochMs := lockUntilEpochMs.getD 0 }

/-- `getEntity()`: read the singleton record; when the store reports
not-found, materialize and persist the zero-valued default.  Returns
the record read together with the store contents afterwards. -/
def getEntity (store : Option AuthStateEntity) :
    AuthStateEntity × Option AuthStateEntity :=
  match store with
  | some e => (normalizeEntity (some e.failedAttempts) (some e.lockUntilEpochMs), store)
  | none => (defaultEntity, some defaultEntity)

/-- `Math.ceil (a / b)` for integers `a`, `b` with `b > 0`: the integer
ceiling of the exact quotient, via Euclidean (floor) division. -/
def ceilDiv (a b : Int) : Int := -((-a) / b)

/-- `toStatus(entity)`: derive the `LockoutStatus` view from the record,
the current time and the configured attempt ceiling.
`retryAfterSeconds = Math.max(0, Math.ceil((lockUntilEpochMs - now) / 1000))`. -/
def toStatus (now maxAttempts : Int) (e : AuthStateEntity) : LockoutStatus :=
  let retryAfterSeconds : Int := max 0 (ceilDiv (e.lockUntilEpochMs - now) 1000)
  { isLocked := decide (0 < retryAfterSeconds)
    failedAttempts := e.failedAttempts
    maxAttempts := maxAttempts
    lockUntilEpochMs := e.lockUntilEpochMs
    retryAfterSeconds := retryAfterSeconds }

/-- `getLockoutStatus()`: read (possibly materializing the default) and
derive the status view. -/
def getLockoutStatus (now maxAttempts : Int) (store : Option AuthStateEntity) :
    LockoutStatus × Option AuthStateEntity :=
  let (e, store1) := getEntity store
  (toStatus now maxAttempts e, store1)

/-- Result of `recordFailedAttempt`: the reported status, the store
contents afterwards, and whether `saveEntity` was called. -/
structure FailedAttemptResult where
  status : LockoutStatus
  store : Option AuthStateEntity
  wrote : Bool
  deriving DecidableEq, Repr

/-- `recordFailedAttempt()`: if a lock is active (`lockUntilEpochMs > now`)
return the status without writing; otherwise increment the counter and,
when it reaches `authMaxAttempts`, store a fresh lock
(`now + authLockMinutes * 60 * 1000`) with the counter reset to `0`. -/
def recordFailedAttempt (maxAttempts lockMinutes now : Int)
    (store : Option AuthStateEntity) : FailedAttemptResult :=
  let (entity, store1) := getEntity store
  if entity.lockUntilEpochMs > now then
    { status := toStatus now maxAttempts entity, store := store1, wrote := false }
  else
    let f := entity.failedAttempts + 1
    let next : AuthStateEntity :=
      if f ≥ maxAttempts then
        { failedAttempts := 0, lockUntilEpochMs := now + lockMinutes * 60 * 1000 }
      else
        { failedAttempts := f, lockUntilEpochMs := 0 }
    { status := toStatus now maxAttempts next, store := some next, wrote := true }

/-- `resetFailedAttempts()`: unconditionally overwrite the record with
zero counter and zero lock. -/
def resetFailedAttempts (_store : Option AuthStateEntity) : Option AuthStateEntity :=
  some { failedAttempts := 0, lockUntilEpochMs := 0 }

/-! ## TOTP verifier front-end (`src/lib/auth/totp.ts`) -/

/-- JavaScript `\s` (the class stripped by `code.replace(/\s+/g, "")`):
ASCII whitespace plus the Unicode space separators, line separators and
BOM. -/
def isJsWhitespace (c : Char) : Bool :=
  c == ' ' || c == '\t' || c == '\n' || c == '\x0b' || c == '\x0c' || c == '\r' ||
    c == '\u00A0' || c == '\u1680' || c == '\u2000' || c == '\u2001' ||
    c == '\u2002' || c == '\u2003' || c == '\u2004' || c == '\u2005' ||
    c == '\u2006' || c == '\u2007' || c == '\u2008' || c == '\u2009' ||
    c == '\u200A' || c == '\u2028' || c == '\u2029' || c == '\u202F' ||
    c == '\u205F' || c == '\u3000' || c == '\uFEFF'

/-- `code.replace(/\s+/g, "").trim()`: remove every whitespace character
(after which the `trim` is a no-op). -/
def normalizeCode (code : String) : String :=
  ⟨code.data.filter (fun c => !(isJsWhitespace c))⟩

/-- The regular expression test `/^\d{6}$/`: exactly six ASCII digits. -/
def isSixDigitCode (s : String) : Bool :=
  s.data.length == 6 && s.data.all (fun c => c.isDigit)

/-- `verifyTotpCode(code)`, instrumented.  The time-step comparison
performed by the `otplib` library (`verifySync(...).valid`) is outside
the repository and is abstracted as the parameter `check`.  Returns the
boolean result together with a flag recording whether `check` was
reached. -/
def verifyTotpCodeRun (check : String → Bool) (code : String) : Bool × Bool :=
  let normalized := normalizeCode code
  if isSixDigitCode normalized then (check normalized, true) else (false, false)

/-- `verifyTotpCode(code)`: the boolean result alone. -/
def verifyTotpCode (check : String → Bool) (code : String) : Bool :=
  (verifyTotpCodeRun check code).1

/-! ## Session tokens (`src/lib/auth/session.ts`) -/

/-- The JWT payload `{ authenticated: true }` (an arbitrary token
presented for verification may carry any boolean). -/
structure SessionPayload where
  authenticated : Bool
  deriving DecidableEq, Repr

/-- A structurally well-formed signed JWT.  The HMAC-SHA256 signature is
modelled symbolically: `sigSecret` records the key that produced the
signature, and verification succeeds exactly when it equals the
verifier's secret.  `iat`/`exp` are seconds since epoch. -/
structure SessionJwt where
  payload : SessionPayload
  iat : Int
  exp : Int
  sigSecret : String
  deriving DecidableEq, Repr

/-- A token string handed to `verifySessionToken`: either garbage that
fails to parse as a JWT, or a structurally valid signed token. -/
inductive SessionTokenString where
  | malformed : SessionTokenString
  | signed : SessionJwt → SessionTokenString
  deriving DecidableEq, Repr

/-- The failure modes of `jose.jwtVerify` (each surfaces as a thrown
exception in TypeScript). -/
inductive JwtError where
  | parseError : JwtError
  | signatureInvalid : JwtError
  | expired : JwtError
  deriving DecidableEq, Repr

/-- `jose.jwtVerify(token, secret)`: parse, check the signature, check
the `exp` claim against the current time, and return the payload. -/
def jwtVerify (secret : String) (now : Int) :
    SessionTokenString → Except JwtError SessionPayload
  | .malformed => .error .parseError
  | .signed t =>
    if t.sigSecret ≠ secret then .error .signatureInvalid
    else if t.exp ≤ now then .error .expired
    else .ok t.payload

/-- `createSessionToken()`: sign `{ authenticated: true }` with
issued-at `now` and expiry `sessionTtlHours` in the future
(`setExpirationTime` with an hour suffix adds `ttlHours * 3600`
seconds). -/
def createSessionToken (secret : String) (sessionTtlHours : Int) (now : Int) :
    SessionJwt :=
  { payload := { authenticated := true }
    iat := now
    exp := now + sessionTtlHours * 3600
    sigSecret := secret }

/-- `verifySessionToken(token)`: `jwtVerify` wrapped in `try/catch`;
any thrown error yields `false`, success yields
`payload.authenticated === true`. -/
def verifySessionToken (secret : String) (now : Int)
    (token : SessionTokenString) : Bool :=
  match jwtVerify secret now token with
  | .ok payload => payload.authenticated == true
  | .error _ => false

/-! ## Login route handler (`src/app/api/auth/login/route.ts`) -/

/-- The JSON body of a login request, as seen by the zod schema
`z.object({ code: z.string().trim().min(1) })`. -/
inductive RequestBody where
  | notJson : RequestBody
  | noCodeField : RequestBody
  | nonStringCode : RequestBody
  | codeField : String → RequestBody
  deriving DecidableEq, Repr

/-- JavaScript `String.prototype.trim()`: drop leading and trailing
whitespace characters. -/
def jsTrim (s : String) : String :=
  ⟨((s.data.dropWhile isJsWhitespace).reverse.dropWhile isJsWhitespace).reverse⟩

/-- `bodySchema.parse`: succeeds with the trimmed code exactly when the
body is an object whose `code` field is a string that is nonempty after
trimming. -/
def parseLoginBody : RequestBody → Option String
  | .codeField s =>
    let t := jsTrim s
    if 1 ≤ t.data.length then some t else none
  | _ => none

/-- The observable response of the login route: HTTP status, success
flag, and the lockout status included in the body, if any. -/
structure LoginResponse where
  status : Nat
  success : Bool
  lockout : Option LockoutStatus
  deriving DecidableEq, Repr

/-- Result of one `POST /api/auth/login`: the response, the lockout
store afterwards, whether the store was accessed at all, whether the
TOTP verifier was reached, and whether a session cookie was issued. -/
structure PostResult where
  response : LoginResponse
  store : Option AuthStateEntity
  storeRead : Bool
  verifierInvoked : Bool
  sessionIssued : Bool
  deriving DecidableEq, Repr

/-- The `POST` handler: validate the body (400 on failure, store and
verifier untouched); read the lockout status and short-circuit with 423
while locked; otherwise run the TOTP verifier, recording a failed
attempt on a wrong code (423 when that attempt locks, else 401), and on
success reset the counter and issue a session (200). -/
def POST (maxAttempts lockMinutes now : Int) (check : String → Bool)
    (body : RequestBody) (store : Option AuthStateEntity) : PostResult :=
  match parseLoginBody body with
  | none =>
    { response := { status := 400, success := false, lockout := none }
      store := store, storeRead := false, verifierInvoked := false
      sessionIssued := false }
  | some code =>
    let (currentLockout, store1) := getLockoutStatus now maxAttempts store
    if currentLockout.isLocked then
      { response := { status := 423, success := false, lockout := some currentLockout }
        store := store1, storeRead := true, verifierInvoked := false
        sessionIssued := false }
    else
      let (valid, invoked) := verifyTotpCodeRun check code
      if valid then
        { response := { status := 200, success := true, lockout := none }
          store := resetFailedAttempts store1, storeRead := true
          verifierInvoked := invoked, sessionIssued := true }
      else
        let r := recordFailedAttempt maxAttempts lockMinutes now store1
        { response :=
            { status := if r.status.isLocked then 423 else 401
              success := false, lockout := some r.status }
          store := r.store, storeRead := true, verifierInvoked := invoked
          sessionIssued := false }

/-- One status query (`GET` handler reading the lockout state): the
store contents after `getLockoutStatus`. -/
def statusQueryStep (now maxAttempts : Int) (store : Option AuthStateEntity) :
    Option AuthStateEntity :=
  (getLockoutStatus now maxAttempts store).2

/-- The logical `failedAttempts`/`lockUntilEpochMs` values of the store:
an absent record reads as the zero-valued default. -/
def recordView : Option AuthStateEntity → Int × Int
  | none => (0, 0)
  | some e => (e.failedAttempts, e.lockUntilEpochMs)

/-- The invariant claimed for every record the system writes: the stored
counter is below the configured ceiling, and a locked record always
stores a zero counter. -/
def StoredInvariant (maxAttempts : Int) (e : AuthStateEntity) : Prop :=
  e.failedAttempts < maxAttempts ∧ (e.lockUntilEpochMs ≠ 0 → e.failedAttempts = 0)

/-! ## Helper lemmas -/

theorem ceilDiv_eq_ceil (a : Int) : ceilDiv a 1000 = ⌈(a : ℚ) / 1000⌉ := by
  have h1 : ((a : ℚ)) / 1000 = -((((-a : Int)) : ℚ) / ((1000 : ℕ) : ℚ)) := by
    push_cast
    ring
  rw [h1, Int.ceil_neg, Rat.floor_intCast_div_natCast]
  norm_num [ceilDiv]

theorem ceilDiv_pos_of_pos {a : Int} (h : 0 < a) : 0 < ceilDiv a 1000 := by
  have h1 : -a ≤ -1 := by omega
  have h2 := Int.ediv_le_ediv (c := 1000) (by norm_num) h1
  have h3 : (-1 : Int) / 1000 = -1 := by decide
  unfold ceilDiv
  omega

theorem ceilDiv_nonpos_of_nonpos {a : Int} (h : a ≤ 0) : ceilDiv a 1000 ≤ 0 := by
  have h1 : (0 : Int) ≤ -a := by omega
  have h2 := Int.ediv_nonneg h1 (by norm_num : (0 : Int) ≤ 1000)
  unfold ceilDiv
  omega

theorem toStatus_isLocked_iff (now maxAttempts : Int) (e : AuthStateEntity) :
    (toStatus now maxAttempts e).isLocked = true ↔ now < e.lockUntilEpochMs := by
  simp only [toStatus, decide_eq_true_eq]
  constructor
  · intro h
    by_contra hc
    have := ceilDiv_nonpos_of_nonpos (a := e.lockUntilEpochMs - now) (by omega)
    omega
  · intro h
    have := ceilDiv_pos_of_pos (a := e.lockUntilEpochMs - now) (by omega)
    omega

theorem statusQueryStep_idem (now maxAttempts : Int)
    (store : Option AuthStateEntity) :
    statusQueryStep now maxAttempts (statusQueryStep now maxAttempts store) =
      statusQueryStep now maxAttempts store := by
  cases store <;> rfl

theorem recordView_statusQueryStep (now maxAttempts : Int)
    (store : Option AuthStateEntity) :
    recordView (statusQueryStep now maxAttempts store) = recordView store := by
  cases store <;> rfl

theorem getLockoutStatus_statusQueryStep (now maxAttempts : Int)
    (store : Option AuthStateEntity) :
    (getLockoutStatus now maxAttempts (statusQueryStep now maxAttempts store)).1 =
      (getLockoutStatus now maxAttempts store).1 := by
  cases store <;> rfl

/-! ## Claim theorems -/

/-- C4: for every input string whose whitespace-stripped form is not
exactly six ASCII digits, `verifyTotpCode` returns `false` (and, being
a total function, never throws), and the library time-step comparison
`check` is not reached. -/
theorem verifyTotpCode_rejects_malformed (check : String → Bool) (code : String)
    (h : isSixDigitCode (normalizeCode code) = false) :
    verifyTotpCodeRun check code = (false, false) := by
  simp [verifyTotpCodeRun, h]

/-- Witness for C4 at the concrete input `"12 345"` (which strips to
five digits). -/
theorem verifyTotpCode_rejects_malformed_witness :
    isSixDigitCode (normalizeCode "12 345") = false ∧
      verifyTotpCodeRun (fun _ => true) "12 345" = (false, false) :=
  ⟨by decide, verifyTotpCode_rejects_malformed (fun _ => true) "12 345" (by decide)⟩

/-- C5: session verification returns `true` exactly when the token
parses, its signature was produced by the server secret, it is
unexpired at verification time, and its payload asserts
`authenticated = true`; parse errors, signature mismatches and expiry
all yield `false`, and the function is total (never throws). -/
theorem verifySessionToken_true_iff (secret : String) (now : Int)
    (token : SessionTokenString) :
    verifySessionToken secret now token = true ↔
      ∃ t, token = SessionTokenString.signed t ∧ t.sigSecret = secret ∧
        now < t.exp ∧ t.payload.authenticated = true := by
  cases token with
  | malformed => simp [verifySessionToken, jwtVerify]
  | signed t =>
    by_cases hs : t.sigSecret = secret
    · by_cases he : t.exp ≤ now
      · simp [verifySessionToken, jwtVerify, hs, he]
      · simp [verifySessionToken, jwtVerify, hs, he]
        omega
    · simp [verifySessionToken, jwtVerify, hs]

/-- C6: round-trip — a token issued with `ttlHours = h ≥ 1` at time
`now` verifies `true` at `now`, and `false` at `now + h` hours plus one
second. -/
theorem session_round_trip (secret : String) (h now : Int) (hh : 1 ≤ h) :
    verifySessionToken secret now
        (.signed (createSessionToken secret h now)) = true ∧
      verifySessionToken secret (now + h * 3600 + 1)
        (.signed (createSessionToken secret h now)) = false := by
  constructor
  · simp only [verifySessionToken, jwtVerify, createSessionToken]
    rw [if_neg (by simp), if_neg (by omega)]
    rfl
  · simp only [verifySessionToken, jwtVerify, createSessionToken]
    rw [if_neg (by simp), if_pos (by omega)]

/-- Witness for C6 at `secret = "0123456789abcdef0123456789abcdef"`,
`h = 1`, `now = 0`. -/
theorem session_round_trip_witness :
    (1 : Int) ≤ 1 ∧
      (verifySessionToken "0123456789abcdef0123456789abcdef" 0
          (.signed (createSessionToken "0123456789abcdef0123456789abcdef" 1 0)) = true ∧
        verifySessionToken "0123456789abcdef0123456789abcdef" (0 + 1 * 3600 + 1)
          (.signed (createSessionToken "0123456789abcdef0123456789abcdef" 1 0)) = false) :=
  ⟨by decide, session_round_trip "0123456789abcdef0123456789abcdef" 1 0 (by decide)⟩

/-- C7: `toStatus` is a pure function of the record, the current time
and the configured ceiling: `retryAfterSeconds` equals
`max 0 ⌈(lockUntilEpochMs - now) / 1000⌉` (exact rational ceiling,
hence always nonnegative), `isLocked` holds exactly when
`retryAfterSeconds > 0`, and the remaining fields are passed through
unchanged. -/
theorem toStatus_spec (now maxAttempts : Int) (e : AuthStateEntity) :
    (toStatus now maxAttempts e).retryAfterSeconds =
        max 0 ⌈((e.lockUntilEpochMs - now : Int) : ℚ) / 1000⌉ ∧
      0 ≤ (toStatus now maxAttempts e).retryAfterSeconds ∧
      ((toStatus now maxAttempts e).isLocked = true ↔
        0 < (toStatus now maxAttempts e).retryAfterSeconds) ∧
      (toStatus now maxAttempts e).failedAttempts = e.failedAttempts ∧
      (toStatus now maxAttempts e).maxAttempts = maxAttempts ∧
      (toStatus now maxAttempts e).lockUntilEpochMs = e.lockUntilEpochMs := by
  refine ⟨?_, ?_, ?_, rfl, rfl, rfl⟩
  · simp [toStatus, ceilDiv_eq_ceil]
  · simp [toStatus]
  · simp [toStatus, decide_eq_true_eq]

/-- C1: from an unlocked record (`lockUntilEpochMs = 0` or
`lockUntilEpochMs ≤ now`), a failed attempt increments the counter with
no lock when it stays below the ceiling, and otherwise stores a lock at
`now + lockMinutes * 60 * 1000` — strictly in the future for a
configured `lockMinutes ≥ 1` — with the stored counter reset to `0`. -/
theorem recordFailedAttempt_unlocked (maxAttempts lockMinutes now : Int)
    (e : AuthStateEntity) (hnow : 0 ≤ now) (hlockMin : 1 ≤ lockMinutes)
    (hunlocked : e.lockUntilEpochMs = 0 ∨ e.lockUntilEpochMs ≤ now) :
    (e.failedAttempts + 1 < maxAttempts →
      recordFailedAttempt maxAttempts lockMinutes now (some e) =
        { status := toStatus now maxAttempts ⟨e.failedAttempts + 1, 0⟩
          store := some ⟨e.failedAttempts + 1, 0⟩
          wrote := true }) ∧
    (maxAttempts ≤ e.failedAttempts + 1 →
      (recordFailedAttempt maxAttempts lockMinutes now (some e)).store =
          some ⟨0, now + lockMinutes * 60 * 1000⟩ ∧
        now < now + lockMinutes * 60 * 1000 ∧
        (recordFailedAttempt maxAttempts lockMinutes now (some e)).status.isLocked
          = true) := by
  have hnotlocked : ¬ (e.lockUntilEpochMs > now) := by
    rcases hunlocked with h | h <;> omega
  have hfuture : now < now + lockMinutes * 60 * 1000 := by omega
  constructor
  · intro hlt
    simp only [recordFailedAttempt, getEntity, normalizeEntity, Option.getD_some]
    rw [if_neg hnotlocked, if_neg (by omega)]
  · intro hge
    simp only [recordFailedAttempt, getEntity, normalizeEntity, Option.getD_some]
    rw [if_neg hnotlocked, if_pos (by omega)]
    refine ⟨rfl, hfuture, ?_⟩
    exact (toStatus_isLocked_iff now maxAttempts _).mpr hfuture

/-- Witness for C1: with `maxAttempts = 5`, `lockMinutes = 30`,
`now = 1000`, an unlocked record with two prior failures moves to three
failures, and one with four prior failures locks until `now + 30`
minutes. -/
theorem recordFailedAttempt_unlocked_witness :
    (recordFailedAttempt 5 30 1000 (some ⟨2, 0⟩)).store = some ⟨3, 0⟩ ∧
      (recordFailedAttempt 5 30 1000 (some ⟨4, 0⟩)).store =
        some ⟨0, 1000 + 30 * 60 * 1000⟩ := by
  constructor
  · have h := (recordFailedAttempt_unlocked 5 30 1000 ⟨2, 0⟩ (by norm_num)
      (by norm_num) (Or.inl rfl)).1 (by norm_num)
    rw [h]
    decide
  · have h := ((recordFailedAttempt_unlocked 5 30 1000 ⟨4, 0⟩ (by norm_num)
      (by norm_num) (Or.inl rfl)).2 (by norm_num)).1
    rw [h]

/-- C2: while a lock is active (`now < lockUntilEpochMs`), any login
attempt whose payload parses is rejected with status 423; the lockout
record is read but left unchanged, the TOTP verifier is never reached,
and no session is issued. -/
theorem locked_login_rejected (maxAttempts lockMinutes now : Int)
    (check : String → Bool) (body : RequestBody) (code : String)
    (e : AuthStateEntity) (hparse : parseLoginBody body = some code)
    (hlocked : now < e.lockUntilEpochMs) :
    POST maxAttempts lockMinutes now check body (some e) =
      { response := { status := 423, success := false
                      lockout := some (toStatus now maxAttempts e) }
        store := some e
        storeRead := true
        verifierInvoked := false
        sessionIssued := false } := by
  simp only [POST, hparse, getLockoutStatus, getEntity, normalizeEntity,
    Option.getD_some]
  rw [if_pos ((toStatus_isLocked_iff now maxAttempts _).mpr hlocked)]

/-- Witness for C2: a request with code `"123456"` against a record
locked until epoch-ms 5000 at `now = 0`. -/
theorem locked_login_rejected_witness :
    parseLoginBody (.codeField "123456") = some "123456" ∧
      POST 3 30 0 (fun _ => true) (.codeField "123456") (some ⟨0, 5000⟩) =
        { response := { status := 423, success := false
                        lockout := some (toStatus 0 3 ⟨0, 5000⟩) }
          store := some ⟨0, 5000⟩
          storeRead := true
          verifierInvoked := false
          sessionIssued := false } :=
  ⟨by decide,
    locked_login_rejected 3 30 0 (fun _ => true) (.codeField "123456") "123456"
      ⟨0, 5000⟩ (by decide) (by decide)⟩

/-- C3 counterexample: an expired lock (`lockUntilEpochMs = 5 ≤ now = 5`)
whose stored `failedAttempts` is `1`, with `maxAttempts = 2`: the failed
attempt does not produce `failedAttempts = 1, lockUntilEpochMs = 0` —
the stale counter is incremented to the ceiling and a fresh lock is
stored instead. -/
theorem expired_lock_counterexample :
    (recordFailedAttempt 2 1 5 (some ⟨1, 5⟩)).store ≠
      some ⟨1, 0⟩ := by decide

/-- C3 amended: on a record whose lock has expired
(`lockUntilEpochMs ≤ now`), a failed attempt increments the *stored*
`failedAttempts` value (no reset to a fresh counter happens): the result
is `failedAttempts + 1` with no lock when that stays below the ceiling,
and a fresh lock otherwise.  In particular, for the locked records the
system itself writes — which always store `failedAttempts = 0` — and a
configured `maxAttempts ≥ 2`, the result is `UNLOCKED(1)`. -/
theorem expired_lock_failed_attempt (maxAttempts lockMinutes now : Int)
    (e : AuthStateEntity) (hexpired : e.lockUntilEpochMs ≤ now) :
    (e.failedAttempts + 1 < maxAttempts →
      (recordFailedAttempt maxAttempts lockMinutes now (some e)).store =
        some ⟨e.failedAttempts + 1, 0⟩) ∧
    (maxAttempts ≤ e.failedAttempts + 1 →
      (recordFailedAttempt maxAttempts lockMinutes now (some e)).store =
        some ⟨0, now + lockMinutes * 60 * 1000⟩) ∧
    (e.failedAttempts = 0 → 2 ≤ maxAttempts →
      (recordFailedAttempt maxAttempts lockMinutes now (some e)).store =
        some ⟨1, 0⟩) := by
  have hnotlocked : ¬ (e.lockUntilEpochMs > now) := by omega
  refine ⟨fun hlt => ?_, fun hge => ?_, fun hzero hmax => ?_⟩
  · simp only [recordFailedAttempt, getEntity, normalizeEntity, Option.getD_some]
    rw [if_neg hnotlocked, if_neg (by omega)]
  · simp only [recordFailedAttempt, getEntity, normalizeEntity, Option.getD_some]
    rw [if_neg hnotlocked, if_pos (by omega)]
  · simp only [recordFailedAttempt, getEntity, normalizeEntity, Option.getD_some]
    rw [if_neg hnotlocked, if_neg (by omega)]
    rw [hzero]
    norm_num

/-- Witness for the amended C3: an expired lock written by the system
(stored counter `0`), `maxAttempts = 3`: the next failed attempt yields
`failedAttempts = 1`, `lockUntilEpochMs = 0`. -/
theorem expired_lock_failed_attempt_witness :
    ((⟨0, 5⟩ : AuthStateEntity).lockUntilEpochMs : Int) ≤ 5 ∧
      (recordFailedAttempt 3 30 5 (some ⟨0, 5⟩)).store = some ⟨1, 0⟩ :=
  ⟨by decide,
    ((expired_lock_failed_attempt 3 30 5 ⟨0, 5⟩ (by decide)).2.2 rfl (by norm_num))⟩

/-- C8: a malformed login payload (no JSON object, missing `code`,
non-string `code`, or a code that is empty after trimming) is rejected
with status 400 before the lockout store is read or written and before
the TOTP verifier runs: the store is untouched and no session is
issued. -/
theorem invalid_payload_rejected (maxAttempts lockMinutes now : Int)
    (check : String → Bool) (body : RequestBody)
    (store : Option AuthStateEntity) (h : parseLoginBody body = none) :
    POST maxAttempts lockMinutes now check body store =
      { response := { status := 400, success := false, lockout := none }
        store := store
        storeRead := false
        verifierInvoked := false
        sessionIssued := false } := by
  simp [POST, h]

/-- Witness for C8 at the concrete body whose `code` is `"   "` (empty
after trimming). -/
theorem invalid_payload_rejected_witness :
    parseLoginBody (.codeField "   ") = none ∧
      POST 3 30 0 (fun _ => false) (.codeField "   ") (some ⟨1, 0⟩) =
        { response := { status := 400, success := false, lockout := none }
          store := some ⟨1, 0⟩
          storeRead := false
          verifierInvoked := false
          sessionIssued := false } :=
  ⟨by decide,
    invalid_payload_rejected 3 30 0 (fun _ => false) (.codeField "   ")
      (some ⟨1, 0⟩) (by decide)⟩

/-- C9: the status query is idempotent — any number of repeated queries
(without an intervening login attempt) leaves the record's
`failedAttempts` and `lockUntilEpochMs` values unchanged (an absent
record reads as the zero default it lazily materializes), and every
repetition at the same time returns the same `LockoutStatus`. -/
theorem status_query_idempotent (now maxAttempts : Int)
    (store : Option AuthStateEntity) (k : Nat) :
    recordView ((statusQueryStep now maxAttempts)^[k] store) =
        recordView store ∧
      (getLockoutStatus now maxAttempts
          ((statusQueryStep now maxAttempts)^[k] store)).1 =
        (getLockoutStatus now maxAttempts store).1 := by
  induction k with
  | zero => exact ⟨rfl, rfl⟩
  | succ n ih =>
    rw [Function.iterate_succ_apply']
    exact ⟨(recordView_statusQueryStep now maxAttempts _).trans ih.1,
      (getLockoutStatus_statusQueryStep now maxAttempts _).trans ih.2⟩

/-- C10: every record the system writes to the lockout store — the
lazily materialized default, the result of `resetFailedAttempts`, and
everything `recordFailedAttempt` saves — stores a counter strictly
below the configured ceiling (`maxAttempts ≥ 1`), and stores a zero
counter whenever its lock timestamp is nonzero. -/
theorem stored_invariant (maxAttempts lockMinutes now : Int)
    (hmax : 1 ≤ maxAttempts) :
    StoredInvariant maxAttempts defaultEntity ∧
      (∀ store e, resetFailedAttempts store = some e →
        StoredInvariant maxAttempts e) ∧
      (∀ store e,
        (recordFailedAttempt maxAttempts lockMinutes now store).wrote = true →
        (recordFailedAttempt maxAttempts lockMinutes now store).store = some e →
        StoredInvariant maxAttempts e) := by
  refine ⟨⟨by simpa [defaultEntity] using hmax, fun _ => rfl⟩, ?_, ?_⟩
  · intro store e he
    simp only [resetFailedAttempts, Option.some.injEq] at he
    subst he
    exact ⟨by simpa using hmax, fun _ => rfl⟩
  · intro store e hw hs
    rcases hge : getEntity store with ⟨ent, st1⟩
    by_cases h1 : ent.lockUntilEpochMs > now
    · simp [recordFailedAttempt, hge, h1] at hw
    · by_cases h2 : ent.failedAttempts + 1 ≥ maxAttempts
      · simp only [recordFailedAttempt, hge, if_neg h1, if_pos h2,
          Option.some.injEq] at hs
        subst hs
        exact ⟨by simpa using hmax, fun _ => rfl⟩
      · simp only [recordFailedAttempt, hge, if_neg h1, if_neg h2,
          Option.some.injEq] at hs
        subst hs
        exact ⟨by simpa using (by omega : ent.failedAttempts + 1 < maxAttempts),
          fun hne => absurd rfl hne⟩

/-- Witness for C10 with `maxAttempts = 3`, `lockMinutes = 30`,
`now = 0`: the default record satisfies the invariant. -/
theorem stored_invariant_witness :
    (1 : Int) ≤ 3 ∧ StoredInvariant 3 defaultEntity :=
  ⟨by decide, (stored_invariant 3 30 0 (by decide)).1⟩

end PrivyShare
